import Mathlib

/-!
Shallow embedding of the filestore bot (bot.py).

The sqlite tables become lists of records (rows in rowid order), the two
module-level session dictionaries become a list of user ids and an
association list, and each handler becomes a pure function from its inputs
and the current state to the next state together with the reply it sends.
Randomness (`random.choices`) is modelled by a draw function `Nat → Nat`
giving the index chosen for each position, and the success or failure of a
platform forward call is modelled by an explicit outcome parameter.
-/

namespace FileStoreBot

/-- A row of the `files` table (bot.py lines 41-50): single-file codes. -/
structure FileRecord where
  code : String
  msg_id : Nat
  owner : Nat
  created_at : Int
  caption : String
  file_type : String
deriving Repr, DecidableEq

/-- A row of the `batches` table (bot.py lines 53-60): batch metadata. -/
structure BatchRecord where
  code : String
  owner : Nat
  created_at : Int
  item_count : Nat
deriving Repr, DecidableEq

/-- A row of the `items` table (bot.py lines 63-69): batch items, kept in
rowid (insertion) order by the enclosing list. -/
structure Item where
  code : String
  msg_id : Nat
  owner : Nat
deriving Repr, DecidableEq

/-- The database: the four tables the handlers touch.  Each list holds the
rows in rowid order. -/
structure DB where
  files : List FileRecord
  batches : List BatchRecord
  items : List Item
  admins : List Nat
deriving Repr, DecidableEq

/-- Whole mutable state: the database plus the two in-memory mode
dictionaries (bot.py lines 93-94): `filestore_mode` is the set of user ids
mapped to True, `batch_mode` maps a user id to its accumulated message ids. -/
structure St where
  db : DB
  filestore_mode : List Nat
  batch_mode : List (Nat × List Nat)
deriving Repr, DecidableEq

/-- Database right after startup (bot.py line 89): empty tables except that
the owner id has been inserted into `admins`. -/
def init_db (owner : Nat) : DB :=
  { files := [], batches := [], items := [], admins := [owner] }

/-- The alphabet `string.ascii_uppercase + string.digits` used by
`gen_code` (bot.py line 98). -/
def alphabet : List Char :=
  "ABCDEFGHIJKLMNOPQRSTUVWXYZ0123456789".toList

/-- One character drawn by `random.choices`: the draw `n` selects a
position in the alphabet.  `random.choices` always returns an element of
its population, which we model by reducing the draw modulo the alphabet
size. -/
def charOf (n : Nat) : Char :=
  alphabet.getD (n % alphabet.length) 'A'

/-- `gen_code` (bot.py lines 97-98): joins `length` characters drawn from
the alphabet.  The random stream is the draw function. -/
def gen_code (draws : Nat → Nat) (length : Nat) : String :=
  String.mk ((List.range length).map (fun i => charOf (draws i)))

/-- `is_admin` (bot.py lines 100-102): membership in the `admins` table. -/
def is_admin (db : DB) (uid : Nat) : Bool :=
  decide (uid ∈ db.admins)

/-- `try_forward` (bot.py lines 104-114): up to `fuel` attempts starting at
attempt index `i`; a successful attempt returns the forwarded message id at
once, a failed attempt logs and sleeps `delay` before the next round.  The
result is the returned value together with the list of sleeps performed.
`attempt j` is `some mid` when the j-th forward call succeeds. -/
def try_forward (attempt : Nat → Option Nat) (delay : ℚ) :
    Nat → Nat → Option Nat × List ℚ
  | _, 0 => (none, [])
  | i, fuel + 1 =>
    match attempt i with
    | some m => (some m, [])
    | none =>
      let r := try_forward attempt delay (i + 1) fuel
      (r.1, delay :: r.2)

/-- `try_forward` with its actual arguments `retries=3, delay=0.5`. -/
def try_forward3 (attempt : Nat → Option Nat) : Option Nat × List ℚ :=
  try_forward attempt (1 / 2) 0 3

/-- `forward_message_by_id` (bot.py lines 116-125): a single forward call
inside try/except; on failure it logs and returns None.  No retry, no
sleep. -/
def forward_message_by_id (attempt : Nat → Option Nat) : Option Nat :=
  attempt 0

/-- The replies a handler can send. -/
inductive Reply where
  | adminsOnly
  | noActiveBatch
  | batchEmpty
  | batchSaved (code : String)
  | stored (code : String)
  | storeFailed
  | restoreFailed
  | invalidLink
  | adminList (ids : List Nat)
deriving Repr, DecidableEq

/-- `batch_mode[uid]` dictionary read: the first entry with key `uid`. -/
def batch_lookup (bm : List (Nat × List Nat)) (uid : Nat) : Option (List Nat) :=
  (bm.find? (fun p => decide (p.1 = uid))).map (fun p => p.2)

/-- `batch_mode.pop(uid)`: remove the entry with key `uid`. -/
def batch_pop (bm : List (Nat × List Nat)) (uid : Nat) : List (Nat × List Nat) :=
  bm.filter (fun p => decide (p.1 ≠ uid))

/-- `batch_mode[uid].append(mid)`: in-place update of the entry's list. -/
def batch_set (bm : List (Nat × List Nat)) (uid : Nat) (l : List Nat) :
    List (Nat × List Nat) :=
  bm.map (fun p => if p.1 = uid then (uid, l) else p)

/-- `cmd_filestore` (bot.py lines 159-162): sets `filestore_mode[uid] = True`
unconditionally; it does not touch `batch_mode`. -/
def cmd_filestore (uid : Nat) (s : St) : St :=
  { s with
    filestore_mode :=
      if s.filestore_mode.contains uid then s.filestore_mode
      else uid :: s.filestore_mode }

/-- `cmd_batch` (bot.py lines 196-201): admin gate, then
`batch_mode[uid] = []` with no reply (silent start). -/
def cmd_batch (uid : Nat) (s : St) : St × Option Reply :=
  if is_admin s.db uid then
    (if (batch_lookup s.batch_mode uid).isSome then
      { s with batch_mode := batch_set s.batch_mode uid [] }
     else
      { s with batch_mode := (uid, []) :: s.batch_mode }, none)
  else (s, some Reply.adminsOnly)

/-- `cmd_batchdone` (bot.py lines 204-220): admin gate; `No active batch`
when `uid` has no `batch_mode` entry; otherwise the entry is popped FIRST,
then the emptiness check replies `Batch is empty`; a non-empty batch gets a
fresh `gen_code(8)` and a `batches` row plus one `items` row per message id
in order.  No uniqueness check is made on the generated code. -/
def cmd_batchdone (draws : Nat → Nat) (now : Int) (uid : Nat) (s : St) :
    St × Reply :=
  if is_admin s.db uid then
    match batch_lookup s.batch_mode uid with
    | none => (s, Reply.noActiveBatch)
    | some items =>
      let s1 : St := { s with batch_mode := batch_pop s.batch_mode uid }
      if items = [] then (s1, Reply.batchEmpty)
      else
        let code := gen_code draws 8
        let db1 : DB :=
          { s1.db with
            batches := s1.db.batches ++ [⟨code, uid, now, items.length⟩],
            items := s1.db.items ++ items.map (fun m => ⟨code, m, uid⟩) }
        ({ s1 with db := db1 }, Reply.batchSaved code)
  else (s, Reply.adminsOnly)

/-- `cmd_adminlist` (bot.py lines 234-236): replies with every id of the
`admins` table.  There is no admin gate in the handler. -/
def cmd_adminlist (db : DB) : Reply :=
  Reply.adminList db.admins

/-- `cmd_addadmin` (bot.py lines 238-246): only the owner may add; inserts
the id into `admins` if absent. -/
def cmd_addadmin (owner caller target : Nat) (db : DB) : DB :=
  if caller = owner then
    { db with
      admins := if db.admins.contains target then db.admins
                else db.admins ++ [target] }
  else db

/-- `cmd_removeadmin` (bot.py lines 248-256): only the owner may remove;
deletes the id from `admins`.  Nothing stops `target` from being the owner
itself. -/
def cmd_removeadmin (owner caller target : Nat) (db : DB) : DB :=
  if caller = owner then
    { db with admins := db.admins.filter (fun a => decide (a ≠ target)) }
  else db

/-- `message_handler` (bot.py lines 259-292) for a non-command payload:
`filestore_mode` is consulted first, and its branch pops the flag before
anything else; the batch branch appends the forwarded id only on success
and stays silent; otherwise the payload is ignored.  `fwd` is the result of
`try_forward(msg, GROUP_ID)`. -/
def message_handler (fwd : Option Nat) (draws : Nat → Nat) (now : Int)
    (uid : Nat) (caption file_type : String) (s : St) : St × Option Reply :=
  if s.filestore_mode.contains uid then
    let s1 : St := { s with filestore_mode := s.filestore_mode.filter (fun u => decide (u ≠ uid)) }
    match fwd with
    | none => (s1, some Reply.storeFailed)
    | some mid =>
      let code := gen_code draws 8
      let db1 : DB :=
        { s1.db with files := s1.db.files ++ [⟨code, mid, uid, now, caption, file_type⟩] }
      ({ s1 with db := db1 }, some (Reply.stored code))
  else
    match batch_lookup s.batch_mode uid with
    | some items =>
      match fwd with
      | none => (s, none)
      | some mid =>
        ({ s with batch_mode := batch_set s.batch_mode uid (items ++ [mid]) }, none)
    | none => (s, none)

/-- Observable events of a restore, in order. -/
inductive Ev where
  | replyCount (n : Nat)
  | forwardAttempt (mid : Nat) (ok : Bool)
  | sleep (q : ℚ)
  | replyText (r : Reply)
deriving Repr, DecidableEq

/-- The row query of bot.py line 309:
`SELECT msg_id FROM items WHERE code=? ORDER BY rowid ASC`. -/
def batch_rows (db : DB) (code : String) : List Nat :=
  (db.items.filter (fun it => decide (it.code = code))).map Item.msg_id

/-- The fan-out loop of bot.py lines 312-314: one `forward_message_by_id`
per stored id — whose result is not even inspected — followed by a 1.5
second sleep.  `ok mid` tells whether forwarding message `mid` succeeds. -/
def restore_batch_loop (ok : Nat → Bool) : List Nat → List Ev
  | [] => []
  | m :: rest =>
    Ev.forwardAttempt m (ok m) :: Ev.sleep (3 / 2) :: restore_batch_loop ok rest

/-- `handle_restore_request` (bot.py lines 295-317) as its trace of events:
the `files` table is consulted first and, when it has the code, only that
single record is forwarded; the `items` table is queried only when no file
row matched; an empty result replies `Invalid or expired link`. -/
def handle_restore_request (ok : Nat → Bool) (db : DB) (code : String) :
    List Ev :=
  match db.files.find? (fun f => decide (f.code = code)) with
  | some f =>
    if ok f.msg_id then [Ev.forwardAttempt f.msg_id true]
    else [Ev.forwardAttempt f.msg_id false, Ev.replyText Reply.restoreFailed]
  | none =>
    let rows := batch_rows db code
    if rows = [] then [Ev.replyText Reply.invalidLink]
    else Ev.replyCount rows.length :: restore_batch_loop ok rows

/-- One pass of the body of `auto_delete_loop` (bot.py lines 336-359): when
the `auto_delete_enabled` meta flag is off or the configured window is 0
nothing is deleted; otherwise every `files` row older than the window is
deleted, and every `batches` row older than the window is deleted together
with the `items` rows sharing its code.  The `code` column is PRIMARY KEY
in `files` and `batches`, so the code-keyed DELETE statements remove
exactly the row under scrutiny, which the row-wise filters mirror. -/
def reaper_cycle (enabled : Bool) (window now : Int) (db : DB) : DB :=
  if !enabled then db
  else if window = 0 then db
  else
    { db with
      files := db.files.filter (fun f => !decide (now - f.created_at > window)),
      batches := db.batches.filter (fun b => !decide (now - b.created_at > window)),
      items := db.items.filter (fun it =>
        !(db.batches.any (fun b =>
          decide (b.code = it.code) && decide (now - b.created_at > window)))) }

/-! ## Helper lemmas -/

/-- Every character drawn by `charOf` lies in the alphabet. -/
theorem charOf_mem (n : Nat) : charOf n ∈ alphabet := by
  have h : n % alphabet.length < alphabet.length :=
    Nat.mod_lt _ (by decide)
  rw [charOf, List.getD_eq_getElem _ _ h]
  exact List.getElem_mem h

/-- After popping a user from `batch_mode`, the lookup for that user misses. -/
theorem batch_lookup_pop (bm : List (Nat × List Nat)) (uid : Nat) :
    batch_lookup (batch_pop bm uid) uid = none := by
  have h : (batch_pop bm uid).find? (fun p => decide (p.1 = uid)) = none := by
    rw [List.find?_eq_none]
    intro p hp
    have hkeep := (List.mem_filter.1 hp).2
    simp only [decide_eq_true_eq] at hkeep ⊢
    exact hkeep
  rw [batch_lookup, h, Option.map_none']

/-- The restore fan-out loop, written as a flat map: every stored id is
attempted (with its own outcome) and followed by the 1.5 second sleep. -/
theorem restore_batch_loop_eq (ok : Nat → Bool) (mids : List Nat) :
    restore_batch_loop ok mids =
      mids.flatMap (fun m => [Ev.forwardAttempt m (ok m), Ev.sleep (3 / 2)]) := by
  induction mids with
  | nil => rfl
  | cons m rest ih => simp [restore_batch_loop, List.flatMap_cons, ih]

/-! ## Claim C1 -/

/-- A state in which the single-file code `AAAAAAAA` is already stored and
admin 1 has one batch item pending. -/
def collision_state : St :=
  { db := { files := [⟨"AAAAAAAA", 1, 1, 0, "", "document"⟩],
            batches := [], items := [], admins := [1] },
    filestore_mode := [], batch_mode := [(1, [5])] }

/-- Claim C1 counterexample: code generation performs no check against the
stored codes and never re-rolls.  With draws that repeat an already-stored
code, `cmd_batchdone` inserts the colliding code anyway, so the combined
namespace of single-file and batch codes now holds `AAAAAAAA` twice. -/
theorem gen_code_collision_counterexample :
    gen_code (fun _ => 0) 8 = "AAAAAAAA" ∧
    "AAAAAAAA" ∈ collision_state.db.files.map FileRecord.code ∧
    (cmd_batchdone (fun _ => 0) 100 1 collision_state).2 =
      Reply.batchSaved "AAAAAAAA" ∧
    "AAAAAAAA" ∈
      (cmd_batchdone (fun _ => 0) 100 1 collision_state).1.db.batches.map
        BatchRecord.code := by
  decide

/-- Claim C1 (amended): every generated code has exactly 8 characters drawn
from the uppercase-plus-digits alphabet, but no uniqueness check is
performed against stored codes — `gen_code` is a bare random draw and the
caller inserts its result unconditionally. -/
theorem gen_code_length_alphabet (draws : Nat → Nat) :
    (gen_code draws 8).length = 8 ∧
    ∀ c ∈ (gen_code draws 8).data, c ∈ alphabet := by
  constructor
  · simp [gen_code, String.length]
  · intro c hc
    simp only [gen_code, List.mem_map] at hc
    obtain ⟨i, _, rfl⟩ := hc
    exact charOf_mem _

/-! ## Claim C2 -/

/-- A state in which user 7 is collecting a batch with two items. -/
def both_modes_state : St :=
  { db := init_db 1, filestore_mode := [], batch_mode := [(7, [10, 20])] }

/-- Claim C2 counterexample: `cmd_filestore` does not overwrite an
in-progress batch.  After it runs on a user collecting a batch, the user is
simultaneously flagged for single capture and still holds the batch entry,
items intact — nothing was discarded. -/
theorem session_not_exclusive_counterexample :
    (cmd_filestore 7 both_modes_state).filestore_mode.contains 7 = true ∧
    batch_lookup (cmd_filestore 7 both_modes_state).batch_mode 7 =
      some [10, 20] := by
  decide

/-- Claim C2 (amended): `cmd_filestore` sets the single-capture flag but
leaves `batch_mode` untouched, so a user who was collecting a batch is now
in both modes at once and the batch items stay in memory. -/
theorem cmd_filestore_keeps_batch (uid : Nat) (s : St) :
    (cmd_filestore uid s).filestore_mode.contains uid = true ∧
    (cmd_filestore uid s).batch_mode = s.batch_mode := by
  refine ⟨?_, rfl⟩
  by_cases h : uid ∈ s.filestore_mode <;> simp [cmd_filestore, h]

/-! ## Claim C3 -/

/-- Claim C3 counterexample: starting from the freshly initialised database
whose only admin is the owner (id 1), the owner issuing
`removeadmin 1` deletes the owner itself: `is_admin(owner)` becomes
false. -/
theorem owner_removable_counterexample :
    is_admin (cmd_removeadmin 1 1 1 (init_db 1)) 1 = false := by
  decide

/-- Claim C3 (amended): the owner is inserted as an admin at startup, but
nothing protects the owner from removal — `cmd_removeadmin` targeted at the
owner deletes the owner's admin row, after which `is_admin(owner)` is
false. -/
theorem removeadmin_owner_removes_owner (owner : Nat) (db : DB) :
    is_admin (cmd_removeadmin owner owner owner db) owner = false := by
  have h : owner ∉ db.admins.filter (fun a => decide (a ≠ owner)) := by
    intro hmem
    have := (List.mem_filter.1 hmem).2
    simp at this
  simp [is_admin, cmd_removeadmin, h]

/-! ## Claim C4 -/

/-- An attempt pattern whose first forward call fails and whose second
succeeds with message id 5. -/
def flaky_attempt : Nat → Option Nat :=
  fun i => if i = 0 then none else some 5

/-- Claim C4 counterexample: under the same attempt outcomes (first call
fails, second would succeed), the retrying `try_forward` returns the id
while `forward_message_by_id` — which the restore paths use — has already
failed: it does not retry, so it does not share `try_forward`'s contract. -/
theorem relay_contract_counterexample :
    forward_message_by_id flaky_attempt = none ∧
    (try_forward3 flaky_attempt).1 = some 5 := by
  decide

/-- Claim C4 (amended): `try_forward` retries — it survives a first failure,
sleeping 0.5 before the successful second attempt — whereas
`forward_message_by_id` makes exactly one attempt and returns None on its
failure, with no retry and no sleep. -/
theorem relay_contracts_differ (attempt : Nat → Option Nat) (m : Nat)
    (h0 : attempt 0 = none) (h1 : attempt 1 = some m) :
    try_forward3 attempt = (some m, [1 / 2]) ∧
    forward_message_by_id attempt = none := by
  constructor
  · have e3 : (3 : Nat) = 2 + 1 := rfl
    have e2 : (2 : Nat) = 1 + 1 := rfl
    rw [try_forward3, e3, try_forward, h0, e2, try_forward, h1]
  · rw [forward_message_by_id, h0]

/-- Claim C4 witness: the amended theorem at the concrete flaky attempt
pattern. -/
theorem relay_contracts_differ_witness :
    try_forward3 flaky_attempt = (some 5, [1 / 2]) ∧
    forward_message_by_id flaky_attempt = none :=
  relay_contracts_differ flaky_attempt 5 rfl rfl

/-! ## Claim C5 -/

/-- A database whose only admin is user 1. -/
def one_admin_db : DB :=
  { files := [], batches := [], items := [], admins := [1] }

/-- Claim C5: `cmd_adminlist` has no admin gate — the handler answers with
the full admin list no matter who asks.  User 42 is not an admin, yet the
reply is the admin list, contradicting both the claim and the bot's own
help text (`adminlist – admin only`). -/
theorem adminlist_ungated :
    is_admin one_admin_db 42 = false ∧
    cmd_adminlist one_admin_db = Reply.adminList [1] := by
  decide

/-! ## Claim C6 -/

/-- Claim C6: finishing a batch stores one `items` row per collected
message id, in collection order, and the restore-time row query
(`SELECT msg_id FROM items WHERE code=? ORDER BY rowid ASC`) returns
exactly that list — no reordering by any secondary key.  The generated code
is assumed fresh among the stored items, which is what a successful
`StoreBatch` presupposes. -/
theorem batchdone_roundtrip (draws : Nat → Nat) (now : Int) (uid : Nat)
    (s : St) (items : List Nat)
    (hadm : is_admin s.db uid = true)
    (hb : batch_lookup s.batch_mode uid = some items)
    (hne : items ≠ [])
    (hfresh : ∀ it ∈ s.db.items, it.code ≠ gen_code draws 8) :
    (cmd_batchdone draws now uid s).2 = Reply.batchSaved (gen_code draws 8) ∧
    batch_rows (cmd_batchdone draws now uid s).1.db (gen_code draws 8) =
      items := by
  have hred : cmd_batchdone draws now uid s =
      ({ db :=
          { s.db with
            batches := s.db.batches ++ [⟨gen_code draws 8, uid, now, items.length⟩],
            items := s.db.items ++
              items.map (fun m => ⟨gen_code draws 8, m, uid⟩) },
         filestore_mode := s.filestore_mode,
         batch_mode := batch_pop s.batch_mode uid },
       Reply.batchSaved (gen_code draws 8)) := by
    simp [cmd_batchdone, hadm, hb, hne]
  refine ⟨by rw [hred], ?_⟩
  rw [hred, batch_rows]
  show ((s.db.items ++
      items.map (fun m => (⟨gen_code draws 8, m, uid⟩ : Item))).filter
        (fun it : Item => decide (it.code = gen_code draws 8))).map
      Item.msg_id = items
  rw [List.filter_append]
  have hold : s.db.items.filter
      (fun it => decide (it.code = gen_code draws 8)) = [] := by
    rw [List.filter_eq_nil_iff]
    intro it hit
    simp [hfresh it hit]
  have hnew : (items.map (fun m => (⟨gen_code draws 8, m, uid⟩ : Item))).filter
      (fun it => decide (it.code = gen_code draws 8)) =
      items.map (fun m => (⟨gen_code draws 8, m, uid⟩ : Item)) := by
    rw [List.filter_eq_self]
    intro it hit
    obtain ⟨m, _, rfl⟩ := List.mem_map.1 hit
    simp
  rw [hold, hnew, List.nil_append, List.map_map]
  show items.map (fun m => m) = items
  exact List.map_id' items

/-- A state in which admin 1 has collected the batch [10, 20, 30] and the
stored items table already holds an unrelated code. -/
def pending_batch_state : St :=
  { db := { files := [], batches := [], items := [⟨"ZZZZZZZZ", 7, 2⟩],
            admins := [1] },
    filestore_mode := [], batch_mode := [(1, [10, 20, 30])] }

/-- Claim C6 witness: the round trip at a concrete three-item batch. -/
theorem batchdone_roundtrip_witness :
    (cmd_batchdone (fun _ => 0) 50 1 pending_batch_state).2 =
      Reply.batchSaved (gen_code (fun _ => 0) 8) ∧
    batch_rows (cmd_batchdone (fun _ => 0) 50 1 pending_batch_state).1.db
      (gen_code (fun _ => 0) 8) = [10, 20, 30] :=
  batchdone_roundtrip (fun _ => 0) 50 1 pending_batch_state [10, 20, 30]
    (by decide) (by decide) (by decide) (by decide)

/-! ## Claim C7 -/

/-- Claim C7: a batch restore first reports the item count, then walks the
stored rows in order, one forward attempt and one 1.5 second sleep per row;
the attempt's outcome is never consulted, so a failed item is simply
skipped and every remaining item still gets its own attempt. -/
theorem restore_batch_best_effort (ok : Nat → Bool) (db : DB) (code : String)
    (hno : db.files.find? (fun f => decide (f.code = code)) = none)
    (hne : batch_rows db code ≠ []) :
    handle_restore_request ok db code =
      Ev.replyCount (batch_rows db code).length ::
        (batch_rows db code).flatMap
          (fun m => [Ev.forwardAttempt m (ok m), Ev.sleep (3 / 2)]) ∧
    ∀ m ∈ batch_rows db code,
      Ev.forwardAttempt m (ok m) ∈ handle_restore_request ok db code := by
  have h1 : handle_restore_request ok db code =
      Ev.replyCount (batch_rows db code).length ::
        restore_batch_loop ok (batch_rows db code) := by
    rw [handle_restore_request, hno]
    simp [hne]
  refine ⟨by rw [h1, restore_batch_loop_eq], ?_⟩
  intro m hm
  rw [h1, restore_batch_loop_eq]
  exact List.mem_cons_of_mem _ (List.mem_flatMap.2 ⟨m, hm, by simp⟩)

/-- A database holding one three-item batch under code `C`; no file rows. -/
def restore_db : DB :=
  { files := [], batches := [⟨"C", 1, 0, 3⟩],
    items := [⟨"C", 10, 1⟩, ⟨"C", 20, 1⟩, ⟨"C", 30, 1⟩], admins := [1] }

/-- Forwarding succeeds for every message id except 20. -/
def mostly_ok : Nat → Bool := fun m => decide (m ≠ 20)

/-- Claim C7 witness: the dispatcher at a concrete batch in which the
middle item's relay fails; the first and third are still attempted. -/
theorem restore_batch_best_effort_witness :
    handle_restore_request mostly_ok restore_db "C" =
      Ev.replyCount (batch_rows restore_db "C").length ::
        (batch_rows restore_db "C").flatMap
          (fun m => [Ev.forwardAttempt m (mostly_ok m), Ev.sleep (3 / 2)]) ∧
    ∀ m ∈ batch_rows restore_db "C",
      Ev.forwardAttempt m (mostly_ok m) ∈
        handle_restore_request mostly_ok restore_db "C" :=
  restore_batch_best_effort mostly_ok restore_db "C" (by decide) (by decide)

/-! ## Claim C8 -/

/-- Claim C8: one reaper cycle with the retention flag on and a positive
window deletes a file created `window + 1` before now, keeps a file created
`window - 1` before now, and deletes every over-age batch together with all
items bearing its code. -/
theorem reaper_expiry (w now : Int) (db : DB) (f1 f2 : FileRecord)
    (hw : 0 < w)
    (_h1 : f1 ∈ db.files) (hc1 : f1.created_at = now - w - 1)
    (h2 : f2 ∈ db.files) (hc2 : f2.created_at = now - w + 1) :
    f1 ∉ (reaper_cycle true w now db).files ∧
    f2 ∈ (reaper_cycle true w now db).files ∧
    ∀ b ∈ db.batches, now - b.created_at > w →
      b ∉ (reaper_cycle true w now db).batches ∧
      ∀ it ∈ db.items, it.code = b.code →
        it ∉ (reaper_cycle true w now db).items := by
  have hwne : ¬(w = 0) := by omega
  have hred : reaper_cycle true w now db =
      { db with
        files := db.files.filter (fun f => !decide (now - f.created_at > w)),
        batches := db.batches.filter (fun b => !decide (now - b.created_at > w)),
        items := db.items.filter (fun it =>
          !(db.batches.any (fun b =>
            decide (b.code = it.code) && decide (now - b.created_at > w)))) } := by
    simp [reaper_cycle, hwne]
  refine ⟨?_, ?_, ?_⟩
  · rw [hred]
    intro hmem
    have hp := (List.mem_filter.1 hmem).2
    simp only [hc1, Bool.not_eq_true', decide_eq_false_iff_not, not_lt] at hp
    omega
  · rw [hred]
    refine List.mem_filter.2 ⟨h2, ?_⟩
    simp only [hc2, Bool.not_eq_true', decide_eq_false_iff_not, not_lt]
    omega
  · intro b hb hold
    refine ⟨?_, ?_⟩
    · rw [hred]
      intro hmem
      have hp := (List.mem_filter.1 hmem).2
      simp only [Bool.not_eq_true', decide_eq_false_iff_not, not_lt] at hp
      omega
    · intro it hit hcode
      rw [hred]
      intro hmem
      have hp := (List.mem_filter.1 hmem).2
      simp only [Bool.not_eq_true', List.any_eq_false, Bool.and_eq_true,
        decide_eq_true_eq, not_and] at hp
      exact absurd hold (by simpa [hcode] using hp b hb)

/-- A database with one over-age file, one fresh file, and one over-age
batch with a single item, as seen at time 100 with window 5. -/
def expiry_db : DB :=
  { files := [⟨"OLD", 1, 1, 94, "", "document"⟩,
              ⟨"NEW", 2, 1, 96, "", "document"⟩],
    batches := [⟨"B", 1, 90, 1⟩], items := [⟨"B", 9, 1⟩], admins := [1] }

/-- Claim C8 witness: the reaper cycle at `now = 100`, window 5: the file
created at 94 dies, the file created at 96 survives, and the batch from 90
disappears along with its item. -/
theorem reaper_expiry_witness :
    (⟨"OLD", 1, 1, 94, "", "document"⟩ : FileRecord) ∉
      (reaper_cycle true 5 100 expiry_db).files ∧
    (⟨"NEW", 2, 1, 96, "", "document"⟩ : FileRecord) ∈
      (reaper_cycle true 5 100 expiry_db).files ∧
    ∀ b ∈ expiry_db.batches, 100 - b.created_at > 5 →
      b ∉ (reaper_cycle true 5 100 expiry_db).batches ∧
      ∀ it ∈ expiry_db.items, it.code = b.code →
        it ∉ (reaper_cycle true 5 100 expiry_db).items :=
  reaper_expiry 5 100 expiry_db
    ⟨"OLD", 1, 1, 94, "", "document"⟩ ⟨"NEW", 2, 1, 96, "", "document"⟩
    (by decide) (by decide) (by decide) (by decide) (by decide)

/-! ## Claim C9 -/

/-- Claim C9: the restore handler consults the `files` table first; when a
code is stored both as a single file and as batch items, only the single
file is forwarded, and the batch count reply — the first step of the batch
branch — never appears, so the batch items are never consulted. -/
theorem restore_single_precedence (ok : Nat → Bool) (db : DB) (code : String)
    (f : FileRecord)
    (hf : db.files.find? (fun r => decide (r.code = code)) = some f)
    (_hitem : ∃ it ∈ db.items, it.code = code) :
    handle_restore_request ok db code =
      (if ok f.msg_id then [Ev.forwardAttempt f.msg_id true]
       else [Ev.forwardAttempt f.msg_id false,
             Ev.replyText Reply.restoreFailed]) ∧
    ∀ n, Ev.replyCount n ∉ handle_restore_request ok db code := by
  have h1 : handle_restore_request ok db code =
      (if ok f.msg_id then [Ev.forwardAttempt f.msg_id true]
       else [Ev.forwardAttempt f.msg_id false,
             Ev.replyText Reply.restoreFailed]) := by
    rw [handle_restore_request, hf]
  refine ⟨h1, ?_⟩
  intro n
  rw [h1]
  by_cases hok : ok f.msg_id <;> simp [hok]

/-- A database in which code `C` is stored both as a single file (message
77) and as a batch item (message 10). -/
def shadowed_db : DB :=
  { files := [⟨"C", 77, 1, 0, "", "document"⟩],
    batches := [⟨"C", 1, 0, 1⟩], items := [⟨"C", 10, 1⟩], admins := [1] }

/-- Claim C9 witness: restoring the doubly-stored code `C` forwards only
the single file's message 77. -/
theorem restore_single_precedence_witness :
    handle_restore_request (fun _ => true) shadowed_db "C" =
      (if (fun _ => true : Nat → Bool) 77 then [Ev.forwardAttempt 77 true]
       else [Ev.forwardAttempt 77 false,
             Ev.replyText Reply.restoreFailed]) ∧
    ∀ n, Ev.replyCount n ∉
      handle_restore_request (fun _ => true) shadowed_db "C" :=
  restore_single_precedence (fun _ => true) shadowed_db "C"
    ⟨"C", 77, 1, 0, "", "document"⟩ (by decide) (by decide)

/-! ## Claim C10 -/

/-- Claim C10: for an admin whose collected batch is empty, `batchdone`
pops the session entry before the emptiness check, so it reports the empty
batch yet also resets the session: the lookup now misses, and a second
`batchdone` immediately answers `No active batch`. -/
theorem batchdone_empty_resets_session (draws : Nat → Nat) (now : Int)
    (uid : Nat) (s : St)
    (hadm : is_admin s.db uid = true)
    (hb : batch_lookup s.batch_mode uid = some []) :
    (cmd_batchdone draws now uid s).2 = Reply.batchEmpty ∧
    batch_lookup (cmd_batchdone draws now uid s).1.batch_mode uid = none ∧
    (cmd_batchdone draws now uid (cmd_batchdone draws now uid s).1).2 =
      Reply.noActiveBatch := by
  have hred : cmd_batchdone draws now uid s =
      ({ s with batch_mode := batch_pop s.batch_mode uid },
       Reply.batchEmpty) := by
    simp [cmd_batchdone, hadm, hb]
  refine ⟨by rw [hred], ?_, ?_⟩
  · rw [hred]
    exact batch_lookup_pop _ _
  · rw [hred]
    simp [cmd_batchdone, hadm, batch_lookup_pop]

/-- A state in which admin 1 has started a batch and collected nothing. -/
def empty_batch_state : St :=
  { db := init_db 1, filestore_mode := [], batch_mode := [(1, [])] }

/-- Claim C10 witness: the empty-batch double `batchdone` at the concrete
state. -/
theorem batchdone_empty_resets_session_witness :
    (cmd_batchdone (fun _ => 0) 0 1 empty_batch_state).2 = Reply.batchEmpty ∧
    batch_lookup (cmd_batchdone (fun _ => 0) 0 1 empty_batch_state).1.batch_mode
      1 = none ∧
    (cmd_batchdone (fun _ => 0) 0 1
      (cmd_batchdone (fun _ => 0) 0 1 empty_batch_state).1).2 =
      Reply.noActiveBatch :=
  batchdone_empty_resets_session (fun _ => 0) 0 1 empty_batch_state
    (by decide) (by decide)

end FileStoreBot
